import Mathlib

/-!
Verification of the service lifecycle orchestrator of
container-service-extension (src/container_service_extension/service.py).

The Python code is shallowly embedded: the mutable field `self._state` and
the polled `self.active_requests_count()` become explicit arguments, raised
exceptions become constructors of an outcome type, and side-effecting calls
to external collaborators (the compute-policy backend, the message broker)
become entries of an explicit call trace.  String messages are kept verbatim
from the source, except that quote characters produced by Python f-string
interpolation are elided.
-/

/-- ServerState, from service.py lines 76-81: the four lifecycle states with
their display values. -/
inductive ServerState
  | RUNNING
  | DISABLED
  | STOPPING
  | STOPPED
deriving DecidableEq, BEq, Repr

/-- Display value of each state (service.py lines 78-81). -/
def ServerState.value : ServerState → String
  | .RUNNING => "Running"
  | .DISABLED => "Disabled"
  | .STOPPING => "Shutting down"
  | .STOPPED => "Stopped"

/-- Textual form a state takes when interpolated into the final
CseServerError message of update_status (service.py line 194). -/
def server_state_repr : ServerState → String
  | .RUNNING => "ServerState.RUNNING"
  | .DISABLED => "ServerState.DISABLED"
  | .STOPPING => "ServerState.STOPPING"
  | .STOPPED => "ServerState.STOPPED"

/-- Modelled from the spec: `ServerAction` lives in shared_constants.py,
which is not under src/; the spec defines it as the enum with members
ENABLE, DISABLE and STOP, the only inputs accepted by the transition
function.  Because update_status compares its dynamically typed argument
against the three members one by one and otherwise falls through, the extra
constructor `OTHER` stands for any other value reaching the function at
runtime, carrying its textual form. -/
inductive ServerAction
  | ENABLE
  | DISABLE
  | STOP
  | OTHER (s : String)
deriving DecidableEq, BEq, Repr

/-- Textual form an action takes when interpolated into the BadRequestError
message of update_status (service.py line 173). -/
def action_repr : ServerAction → String
  | .ENABLE => "ServerAction.ENABLE"
  | .DISABLE => "ServerAction.DISABLE"
  | .STOP => "ServerAction.STOP"
  | .OTHER s => s

/-- Outcome of a call to update_status: a returned message, or one of the
two exception kinds it raises (cse_exception.BadRequestError and
cse_exception.CseServerError). -/
inductive UpdateOutcome
  | success (message : String)
  | badRequestError (error_message : String)
  | cseServerError (message : String)
deriving DecidableEq, BEq, Repr

/-- True exactly on the invalid-request outcome (BadRequestError). -/
def is_bad_request : UpdateOutcome → Bool
  | .badRequestError _ => true
  | _ => false

/-- Message built by the nested graceful_shutdown helper
(service.py lines 154-160): starts from the fixed text and appends the
in-flight request count when it is positive. -/
def graceful_shutdown_message (n : Nat) : String :=
  let message := "Shutting down CSE"
  if n > 0 then
    message ++ (" CSE will finish processing " ++ toString n ++ " requests.")
  else
    message

/-- Service.update_status (service.py lines 153-194).  `state` is
self._state on entry, `n` is self.active_requests_count() as read by
graceful_shutdown, and the result pairs the value of self._state on exit
with the returned message or raised exception.  Python control flow is kept:
inside the RUNNING block an unmatched action hits the explicit
BadRequestError raise (line 172); inside the DISABLED and STOPPING blocks an
unmatched action falls out of the block and reaches the final CseServerError
raise (line 194), which also handles the STOPPED state. -/
def update_status (state : ServerState) (n : Nat) (server_action : ServerAction) :
    ServerState × UpdateOutcome :=
  if state = ServerState.RUNNING then
    if server_action = ServerAction.ENABLE then
      (state, UpdateOutcome.success "CSE is already enabled and running.")
    else if server_action = ServerAction.DISABLE then
      (ServerState.DISABLED, UpdateOutcome.success "CSE has been disabled.")
    else if server_action = ServerAction.STOP then
      (state, UpdateOutcome.badRequestError
        "CSE must be disabled before it can be stopped.")
    else
      (state, UpdateOutcome.badRequestError
        ("Invalid server action: " ++ action_repr server_action))
  else if state = ServerState.DISABLED then
    if server_action = ServerAction.ENABLE then
      (ServerState.RUNNING, UpdateOutcome.success "CSE has been enabled and is running.")
    else if server_action = ServerAction.DISABLE then
      (state, UpdateOutcome.success "CSE is already disabled.")
    else if server_action = ServerAction.STOP then
      (ServerState.STOPPING, UpdateOutcome.success (graceful_shutdown_message n))
    else
      (state, UpdateOutcome.cseServerError
        ("Invalid server state: " ++ server_state_repr state))
  else if state = ServerState.STOPPING then
    if server_action = ServerAction.ENABLE then
      (state, UpdateOutcome.badRequestError
        "Cannot enable CSE while it is beingstopped.")
    else if server_action = ServerAction.DISABLE then
      (state, UpdateOutcome.badRequestError
        "Cannot disable CSE while it is being stopped.")
    else if server_action = ServerAction.STOP then
      (ServerState.STOPPING, UpdateOutcome.success (graceful_shutdown_message n))
    else
      (state, UpdateOutcome.cseServerError
        ("Invalid server state: " ++ server_state_repr state))
  else
    (state, UpdateOutcome.cseServerError
      ("Invalid server state: " ++ server_state_repr state))

/-- One entry of the k8s template list returned by
ltm.get_all_k8s_local_template_definition, restricted to the keys service.py
reads: LocalTemplateKey.NAME, LocalTemplateKey.REVISION (already passed
through str, as in line 413), LocalTemplateKey.COMPUTE_POLICY and
LocalTemplateKey.CATALOG_ITEM_NAME. -/
structure K8Template where
  name : String
  revision : String
  compute_policy : String
  catalog_item_name : String
deriving DecidableEq, BEq, Repr

/-- Outcome of Service._load_template_definition_from_catalog: either a
process-terminating sys.exit with its code and the error message logged
just before it, or the template list that is stored into
self.config broker templates. -/
inductive LoadTemplatesResult
  | fatal (exit_code : Nat) (msg : String)
  | ok (templates : List K8Template)
deriving DecidableEq, BEq, Repr

/-- Message of service.py lines 399-400 (empty catalog). -/
def no_templates_msg (catalog_name : String) : String :=
  "No valid K8 templates were found in catalog " ++ catalog_name ++
    ". Unable to start CSE server."

/-- Message of service.py lines 422-424 (default template absent). -/
def default_template_missing_msg (default_template_name default_template_revision : String) :
    String :=
  "Default template " ++ default_template_name ++ " with revision " ++
    default_template_revision ++ " not found. Unable to start CSE server."

/-- The found_default_template flag computed by the for loop of service.py
lines 411-414: a fold without early exit, comparing the stringified
revision and the name of each template against the configured defaults. -/
def found_default_template (k8_templates : List K8Template)
    (default_template_name default_template_revision : String) : Bool :=
  k8_templates.foldl
    (fun found template =>
      if template.revision == default_template_revision &&
          template.name == default_template_name then true else found)
    false

/-- Service._load_template_definition_from_catalog (service.py lines
367-432), with the platform query abstracted to its result `k8_templates`
and the client login/logout elided: sys.exit(1) with the no-templates
message when the list is empty, sys.exit(1) with the missing-default
message when no entry matches the configured default name and revision, and
otherwise the list is stored in the run configuration. -/
def load_template_definition_from_catalog (k8_templates : List K8Template)
    (catalog_name default_template_name default_template_revision : String) :
    LoadTemplatesResult :=
  if k8_templates.isEmpty then
    LoadTemplatesResult.fatal 1 (no_templates_msg catalog_name)
  else if found_default_template k8_templates default_template_name
      default_template_revision then
    LoadTemplatesResult.ok k8_templates
  else
    LoadTemplatesResult.fatal 1
      (default_template_missing_msg default_template_name default_template_revision)

/-- One call issued to the compute-policy backend
(compute_policy_manager.ComputePolicyManager) by
Service._process_template_compute_policy_compliance. -/
inductive PolicyCall
  | get_policy (policy_name : String)
  | add_policy (policy_name : String)
  | assign_policy (compute_policy_href : String) (catalog_item_name : String)
  | remove_all_policies (catalog_item_name : String)
deriving DecidableEq, BEq, Repr

/-- Behaviour of the compute-policy backend, abstracted: whether
get_vdc_compute_policy finds a policy of a given name (false models the
EntityNotFoundException path), the href of the found policy, and the href
of a policy newly created by add_vdc_compute_policy. -/
structure PolicyBackend where
  found : String → Bool
  get_href : String → String
  add_href : String → String

/-- Body of the per-template loop of
Service._process_template_compute_policy_compliance (service.py lines
480-515), as the trace of backend calls it issues: a non-empty policy name
is looked up, created only on EntityNotFoundException, then assigned once
to the catalog item using the href of the policy obtained; an empty policy
name leads to a single remove-all call. -/
def process_one_template (cpm : PolicyBackend) (template : K8Template) : List PolicyCall :=
  let policy_name := template.compute_policy
  let catalog_item_name := template.catalog_item_name
  if policy_name ≠ "" then
    if cpm.found policy_name then
      [PolicyCall.get_policy policy_name,
       PolicyCall.assign_policy (cpm.get_href policy_name) catalog_item_name]
    else
      [PolicyCall.get_policy policy_name,
       PolicyCall.add_policy policy_name,
       PolicyCall.assign_policy (cpm.add_href policy_name) catalog_item_name]
  else
    [PolicyCall.remove_all_policies catalog_item_name]

/-- Outcome of Service._process_template_compute_policy_compliance: either
the full trace of backend calls over the template list, or the step was
skipped because OperationNotSupportedException was caught (service.py
lines 516-520). -/
inductive ReconcileResult
  | completed (calls : List PolicyCall)
  | skipped (msg : String)
deriving DecidableEq, BEq, Repr

/-- Informational message of service.py lines 517-518. -/
def policy_not_supported_msg : String :=
  "Compute policy not supported by vCD. Skipping assigning/removing it to/from templates."

/-- Service._process_template_compute_policy_compliance (service.py lines
466-523).  `supported` abstracts whether the platform supports compute
policies: when it does not, ComputePolicyManager raises
OperationNotSupportedException, which the surrounding try block catches and
turns into the informational skip message; otherwise the loop processes the
templates in list order. -/
def process_template_compute_policy_compliance (supported : Bool)
    (cpm : PolicyBackend) (templates : List K8Template) : ReconcileResult :=
  if supported then
    ReconcileResult.completed ((templates.map (process_one_template cpm)).flatten)
  else
    ReconcileResult.skipped policy_not_supported_msg

/-- Modelled from the spec: TemplateRule (template_rule.py is not under
src/) has a name, a target template selector, and an action patching a
field of the matched template definitions in place; the claims only
exercise the compute-policy field, so the action is modelled as an optional
new value for that field.  A rule whose target matches no template is a
silent no-op. -/
structure TemplateRule where
  name : String
  target_name : String
  target_revision : String
  action_compute_policy : Option String
deriving DecidableEq, BEq, Repr

/-- Modelled from the spec: TemplateRule.apply (template_rule.py is not
under src/) patches every template matched by the target selector in
place, leaving the rest unchanged. -/
def apply_rule (rule : TemplateRule) (templates : List K8Template) : List K8Template :=
  templates.map (fun t =>
    if t.name == rule.target_name && t.revision == rule.target_revision then
      match rule.action_compute_policy with
      | some p => { t with compute_policy := p }
      | none => t
    else t)

/-- Service._process_template_rules (service.py lines 434-464): returns
unchanged when the template_rules key is absent from the config (none) or
its list is empty (falsy), and otherwise applies each rule in declaration
order to the template list, each rule seeing the mutations of the previous
ones. -/
def process_template_rules (template_rules : Option (List TemplateRule))
    (templates : List K8Template) : List K8Template :=
  match template_rules with
  | none => templates
  | some rules =>
    if rules.isEmpty then templates
    else rules.foldl (fun ts rule => apply_rule rule ts) templates

/-- The fields of the Service object that the claims about run() concern:
self._state, self.threads and self.consumers (service.py lines 94-97),
with threads and consumers tracked by the ordinal index of the worker they
came from. -/
structure ServiceModel where
  _state : ServerState
  threads : List Nat
  consumers : List Nat
deriving DecidableEq, BEq, Repr

/-- Service.__init__ (service.py lines 84-99): empty consumer and thread
lists and initial state STOPPED. -/
def initial_service : ServiceModel :=
  { _state := ServerState.STOPPED, threads := [], consumers := [] }

/-- The consumer-spawning loop of Service.run (service.py lines 248-268):
for each n below the configured listener count, the try block constructs a
MessageConsumer and starts its thread; `consumer_ok n` abstracts whether
that block completes, a generic exception being caught and logged so the
loop continues with the next worker.  The result lists the indices whose
thread and consumer were appended. -/
def start_consumers (num_consumers : Nat) (consumer_ok : Nat → Bool) : List Nat :=
  (List.range num_consumers).foldl
    (fun acc n => if consumer_ok n then acc ++ [n] else acc) []

/-- Effect of Service.run from the consumer-spawning loop through line 271
on the modelled fields: the started workers are appended to self.threads
and self.consumers, and then self._state is assigned ServerState.RUNNING
directly, without going through update_status. -/
def run_start_consumers (m : ServiceModel) (num_consumers : Nat)
    (consumer_ok : Nat → Bool) : ServiceModel :=
  let started := start_consumers num_consumers consumer_ok
  { m with threads := m.threads ++ started,
           consumers := m.consumers ++ started,
           _state := ServerState.RUNNING }

/-- Effect of the tail of Service.run (service.py line 315) after the drain
loop has exited: self._state is assigned ServerState.STOPPED directly. -/
def run_drain_finish (m : ServiceModel) : ServiceModel :=
  { m with _state := ServerState.STOPPED }

/-- One update_status call can take the state s to the state t (for some
in-flight count and some action); error outcomes leave the state in place,
so they contribute only reflexive steps. -/
def table_step (s t : ServerState) : Prop :=
  ∃ (n : Nat) (a : ServerAction), (update_status s n a).1 = t

/-- The drain loop of Service.run (service.py lines 293-305): once per
second it polls self._state and self.active_requests_count(), and breaks at
the first poll where the state is STOPPING and the count is zero.
`stopping k` tells whether self._state equals ServerState.STOPPING at the
k-th poll (it is set by a concurrent update_status call), `counts k` is the
active-request count returned at the k-th poll, and `fuel` bounds how many
polls are examined; the result is the index of the poll at which the loop
breaks, if any. -/
def drain_break (stopping : Nat → Bool) (counts : Nat → Nat) :
    Nat → Nat → Option Nat
  | 0, _ => none
  | fuel + 1, k =>
    if stopping k && counts k == 0 then some k
    else drain_break stopping counts fuel (k + 1)

/-- The poll sequence of the C7 scenario: the active-request-count function
returns 2, then 1, then 0 on successive once-per-second polls. -/
def c7_counts : Nat → Nat :=
  fun k => [2, 1, 0].getD k 0

/-- A state predicate that is always STOPPING, for the C7 scenario where a
STOP action has already moved the state to STOPPING before the polls. -/
def c7_stopping : Nat → Bool :=
  fun _ => true

/-- Claim C1: every (state, action) pair listed in the transition table
behaves as specified for every in-flight request count n: RUNNING+ENABLE is
a no-op with the already-enabled message, RUNNING+DISABLE moves to DISABLED,
RUNNING+STOP raises the must-be-disabled BadRequestError, DISABLED+ENABLE
moves to RUNNING, DISABLED+DISABLE is a no-op with the already-disabled
message, DISABLED+STOP moves to STOPPING with the drain message that
includes the count when it is positive, STOPPING+STOP is idempotent (state
stays STOPPING, no error, the drain message is re-issued), and
STOPPING+ENABLE / STOPPING+DISABLE raise the cannot-enable / cannot-disable
BadRequestErrors. -/
theorem c1_transition_table : ∀ n : Nat,
    update_status ServerState.RUNNING n ServerAction.ENABLE =
      (ServerState.RUNNING, UpdateOutcome.success "CSE is already enabled and running.") ∧
    update_status ServerState.RUNNING n ServerAction.DISABLE =
      (ServerState.DISABLED, UpdateOutcome.success "CSE has been disabled.") ∧
    update_status ServerState.RUNNING n ServerAction.STOP =
      (ServerState.RUNNING, UpdateOutcome.badRequestError
        "CSE must be disabled before it can be stopped.") ∧
    update_status ServerState.DISABLED n ServerAction.ENABLE =
      (ServerState.RUNNING, UpdateOutcome.success "CSE has been enabled and is running.") ∧
    update_status ServerState.DISABLED n ServerAction.DISABLE =
      (ServerState.DISABLED, UpdateOutcome.success "CSE is already disabled.") ∧
    update_status ServerState.DISABLED n ServerAction.STOP =
      (ServerState.STOPPING, UpdateOutcome.success (graceful_shutdown_message n)) ∧
    graceful_shutdown_message 0 = "Shutting down CSE" ∧
    (∀ m : Nat, graceful_shutdown_message (m + 1) =
      "Shutting down CSE" ++ (" CSE will finish processing " ++ toString (m + 1) ++ " requests.")) ∧
    update_status ServerState.STOPPING n ServerAction.ENABLE =
      (ServerState.STOPPING, UpdateOutcome.badRequestError
        "Cannot enable CSE while it is beingstopped.") ∧
    update_status ServerState.STOPPING n ServerAction.DISABLE =
      (ServerState.STOPPING, UpdateOutcome.badRequestError
        "Cannot disable CSE while it is being stopped.") ∧
    update_status ServerState.STOPPING n ServerAction.STOP =
      (ServerState.STOPPING, UpdateOutcome.success (graceful_shutdown_message n)) := by
  intro n
  refine ⟨rfl, rfl, rfl, rfl, rfl, rfl, rfl, ?_, rfl, rfl, rfl⟩
  intro m
  simp [graceful_shutdown_message]

/-- Claim C2 counterexample: at the concrete input (state DISABLED, an
unrecognized action), update_status does not raise the invalid-request
BadRequestError the claim demands: it falls through to the final
CseServerError raise (Invalid server state), even though DISABLED is a
perfectly valid state. -/
theorem c2_counterexample :
    is_bad_request (update_status ServerState.DISABLED 0 (ServerAction.OTHER "Unknown")).2
      = false ∧
    (update_status ServerState.DISABLED 0 (ServerAction.OTHER "Unknown")).2 =
      UpdateOutcome.cseServerError
        ("Invalid server state: " ++ server_state_repr ServerState.DISABLED) := by
  exact ⟨rfl, rfl⟩

/-- Claim C2 as amended: only in state RUNNING does an unrecognized action
raise the invalid-request BadRequestError; in states DISABLED and STOPPING
an unrecognized action falls through to the internal-consistency
CseServerError (Invalid server state), and every action in state STOPPED
likewise reaches that final CseServerError raise, the state being unchanged
in all these cases. -/
theorem c2_unlisted_pairs : ∀ (n : Nat) (s : String),
    update_status ServerState.RUNNING n (ServerAction.OTHER s) =
      (ServerState.RUNNING, UpdateOutcome.badRequestError
        ("Invalid server action: " ++ s)) ∧
    update_status ServerState.DISABLED n (ServerAction.OTHER s) =
      (ServerState.DISABLED, UpdateOutcome.cseServerError
        ("Invalid server state: " ++ server_state_repr ServerState.DISABLED)) ∧
    update_status ServerState.STOPPING n (ServerAction.OTHER s) =
      (ServerState.STOPPING, UpdateOutcome.cseServerError
        ("Invalid server state: " ++ server_state_repr ServerState.STOPPING)) ∧
    (∀ a : ServerAction, update_status ServerState.STOPPED n a =
      (ServerState.STOPPED, UpdateOutcome.cseServerError
        ("Invalid server state: " ++ server_state_repr ServerState.STOPPED))) := by
  intro n s
  refine ⟨rfl, rfl, rfl, ?_⟩
  intro a
  cases a <;> rfl

/-- Claim C9: whenever update_status raises the invalid-request
BadRequestError, for any current state, count and action, the state on exit
equals the state on entry: every raising path performs no state assignment
before raising. -/
theorem c9_bad_request_leaves_state :
    ∀ (st : ServerState) (n : Nat) (a : ServerAction),
      is_bad_request (update_status st n a).2 = true → (update_status st n a).1 = st := by
  intro st n a h
  cases st <;> cases a <;> simp [update_status, is_bad_request] at h ⊢

/-- Claim C9 witness: RUNNING+STOP raises the invalid-request error and the
state indeed stays RUNNING. -/
theorem c9_witness :
    (update_status ServerState.RUNNING 0 ServerAction.STOP).1 = ServerState.RUNNING :=
  c9_bad_request_leaves_state ServerState.RUNNING 0 ServerAction.STOP (by decide)

/-- Claim C10: in state STOPPED, each of the three recognized actions
raises the CseServerError carrying the Invalid-server-state message, not a
BadRequestError, and the state remains STOPPED. -/
theorem c10_stopped_state : ∀ n : Nat,
    update_status ServerState.STOPPED n ServerAction.ENABLE =
      (ServerState.STOPPED, UpdateOutcome.cseServerError
        ("Invalid server state: " ++ server_state_repr ServerState.STOPPED)) ∧
    update_status ServerState.STOPPED n ServerAction.DISABLE =
      (ServerState.STOPPED, UpdateOutcome.cseServerError
        ("Invalid server state: " ++ server_state_repr ServerState.STOPPED)) ∧
    update_status ServerState.STOPPED n ServerAction.STOP =
      (ServerState.STOPPED, UpdateOutcome.cseServerError
        ("Invalid server state: " ++ server_state_repr ServerState.STOPPED)) := by
  intro n
  exact ⟨rfl, rfl, rfl⟩

/-- Claim C3 counterexample: __init__ leaves the state STOPPED, every
update_status call from STOPPED leaves the state STOPPED, yet run assigns
the state RUNNING directly at a concrete input (2 listeners, both spawns
succeeding) without any update_status call: the state is not mutated only
through the transition table. -/
theorem c3_counterexample :
    initial_service._state = ServerState.STOPPED ∧
    (run_start_consumers initial_service 2 (fun _ => true))._state = ServerState.RUNNING ∧
    (update_status ServerState.STOPPED 0 ServerAction.ENABLE).1 = ServerState.STOPPED ∧
    (update_status ServerState.STOPPED 0 ServerAction.DISABLE).1 = ServerState.STOPPED ∧
    (update_status ServerState.STOPPED 0 ServerAction.STOP).1 = ServerState.STOPPED :=
  ⟨rfl, rfl, rfl, rfl, rfl⟩

/-- Claim C3 as amended: update_status is not the only mutator of the state
field.  Through the transition table alone, every state reachable from the
initial STOPPED state is STOPPED itself; run additionally assigns RUNNING
directly after the consumer-spawning loop and STOPPED directly after the
drain loop, and RUNNING is a different state from STOPPED, so the run
assignments do not move through the table. -/
theorem c3_state_assignments :
    (∀ t, Relation.ReflTransGen table_step ServerState.STOPPED t →
        t = ServerState.STOPPED) ∧
    (∀ m num ok, (run_start_consumers m num ok)._state = ServerState.RUNNING) ∧
    (∀ m, (run_drain_finish m)._state = ServerState.STOPPED) ∧
    ServerState.RUNNING ≠ ServerState.STOPPED := by
  refine ⟨?_, fun m num ok => rfl, fun m => rfl, by decide⟩
  intro t h
  induction h with
  | refl => rfl
  | tail hab hbc ih =>
    subst ih
    rcases hbc with ⟨n, a, hstep⟩
    exact hstep.symm

/-- Claim C3 witness: the reachability conjunct applied to the reflexive
table path at STOPPED. -/
theorem c3_witness : ServerState.STOPPED = ServerState.STOPPED :=
  c3_state_assignments.1 ServerState.STOPPED Relation.ReflTransGen.refl

/-- Helper: the found-default fold of service.py lines 411-414 computes
exactly whether some entry matches the default revision and name. -/
theorem found_default_template_eq_any (ts : List K8Template) (dn dr : String) :
    found_default_template ts dn dr =
      ts.any (fun t => t.revision == dr && t.name == dn) := by
  have h : ∀ (l : List K8Template) (acc : Bool),
      l.foldl (fun found t => if t.revision == dr && t.name == dn then true else found) acc
        = (acc || l.any (fun t => t.revision == dr && t.name == dn)) := by
    intro l
    induction l with
    | nil => intro acc; simp
    | cons x xs ih =>
      intro acc
      rw [List.foldl_cons, ih, List.any_cons]
      cases hx : (x.revision == dr && x.name == dn) <;> simp [hx]
  simpa [found_default_template] using h ts false

/-- Claim C4: template catalog loading exits the process fatally (exit code
1) with the no-templates message when the platform returns zero templates,
and with the distinct missing-default message when the non-empty result has
no entry whose stringified revision and name both equal the configured
defaults; when such an entry exists the list is stored unchanged in the run
configuration, and the found-default check is exactly an existence check
using string equality on both fields. -/
theorem c4_load_templates :
    (∀ cat dn dr, load_template_definition_from_catalog [] cat dn dr =
        LoadTemplatesResult.fatal 1 (no_templates_msg cat)) ∧
    (∀ ts cat dn dr, ts ≠ [] → found_default_template ts dn dr = false →
        load_template_definition_from_catalog ts cat dn dr =
          LoadTemplatesResult.fatal 1 (default_template_missing_msg dn dr)) ∧
    (∀ ts cat dn dr, ts ≠ [] → found_default_template ts dn dr = true →
        load_template_definition_from_catalog ts cat dn dr =
          LoadTemplatesResult.ok ts) ∧
    no_templates_msg "cse-catalog" ≠ default_template_missing_msg "photon-v2" "1" ∧
    (∀ ts dn dr, found_default_template ts dn dr =
        ts.any (fun t => t.revision == dr && t.name == dn)) := by
  refine ⟨fun cat dn dr => rfl, ?_, ?_, by decide, found_default_template_eq_any⟩
  · intro ts cat dn dr h1 h2
    simp [load_template_definition_from_catalog, h1, h2]
  · intro ts cat dn dr h1 h2
    simp [load_template_definition_from_catalog, h1, h2]

/-- Claim C4 witness: with a two-entry catalog containing the default
photon-v2 revision 1, loading succeeds and stores the list unchanged. -/
theorem c4_witness :
    load_template_definition_from_catalog
      [⟨"ubuntu", "1", "", "ubuntu-item"⟩, ⟨"photon-v2", "1", "", "photon-item"⟩]
      "cse-catalog" "photon-v2" "1" =
      LoadTemplatesResult.ok
        [⟨"ubuntu", "1", "", "ubuntu-item"⟩, ⟨"photon-v2", "1", "", "photon-item"⟩] :=
  c4_load_templates.2.2.1 _ "cse-catalog" "photon-v2" "1" (by decide) (by decide)

/-- Claim C5: per template, a non-empty policy name is looked up by name,
created exactly when the lookup reports not-found, and then assigned
exactly once to the catalog item using the href of the policy obtained
(the created one when creation happened); an empty policy name yields a
single remove-all call and no get or create; the completed run processes
the templates in list order; and an unsupported platform turns the whole
step into the informational skip message instead of a failure. -/
theorem c5_policy_reconciliation :
    (∀ cpm t, t.compute_policy = "" →
        process_one_template cpm t =
          [PolicyCall.remove_all_policies t.catalog_item_name]) ∧
    (∀ cpm t, t.compute_policy ≠ "" → cpm.found t.compute_policy = true →
        process_one_template cpm t =
          [PolicyCall.get_policy t.compute_policy,
           PolicyCall.assign_policy (cpm.get_href t.compute_policy) t.catalog_item_name]) ∧
    (∀ cpm t, t.compute_policy ≠ "" → cpm.found t.compute_policy = false →
        process_one_template cpm t =
          [PolicyCall.get_policy t.compute_policy,
           PolicyCall.add_policy t.compute_policy,
           PolicyCall.assign_policy (cpm.add_href t.compute_policy) t.catalog_item_name]) ∧
    (∀ cpm ts, process_template_compute_policy_compliance true cpm ts =
        ReconcileResult.completed ((ts.map (process_one_template cpm)).flatten)) ∧
    (∀ cpm ts, process_template_compute_policy_compliance false cpm ts =
        ReconcileResult.skipped policy_not_supported_msg) := by
  refine ⟨?_, ?_, ?_, fun cpm ts => rfl, fun cpm ts => rfl⟩
  · intro cpm t h
    simp [process_one_template, h]
  · intro cpm t h1 h2
    simp [process_one_template, h1, h2]
  · intro cpm t h1 h2
    simp [process_one_template, h1, h2]

/-- Claim C5 witness: a backend that finds nothing, on a template with
policy name cse-policy, yields lookup, creation, and one assignment with
the created href. -/
theorem c5_witness :
    process_one_template
      ⟨fun _ => false, fun _ => "found-href", fun name => name ++ "-href"⟩
      ⟨"photon-v2", "1", "cse-policy", "photon-item"⟩ =
      [PolicyCall.get_policy "cse-policy",
       PolicyCall.add_policy "cse-policy",
       PolicyCall.assign_policy ("cse-policy" ++ "-href") "photon-item"] :=
  c5_policy_reconciliation.2.2.1 _ _ (by decide) rfl

/-- Helper: the consumer-spawning fold keeps exactly the indices whose try
block completed, in order. -/
theorem start_consumers_eq_filter (num : Nat) (ok : Nat → Bool) :
    start_consumers num ok = (List.range num).filter ok := by
  have h : ∀ (l acc : List Nat),
      l.foldl (fun acc n => if ok n then acc ++ [n] else acc) acc
        = acc ++ l.filter ok := by
    intro l
    induction l with
    | nil => intro acc; simp
    | cons x xs ih =>
      intro acc
      cases hx : ok x <;> simp [List.filter_cons, hx, ih]
  simpa [start_consumers] using h (List.range num) []

/-- Claim C6: a per-worker construction or spawn failure is skipped, so the
pool size plus the number of failing indices equals the configured count;
every index below the count whose construction succeeds is in the pool; at
count 3 with the second construction throwing, the pool is exactly the two
workers 0 and 2; and run proceeds to state RUNNING afterwards regardless of
how many workers failed. -/
theorem c6_worker_pool :
    (∀ num ok, (start_consumers num ok).length +
        (List.range num).countP (fun n => !(ok n)) = num) ∧
    (∀ num ok i, i < num → ok i = true → i ∈ start_consumers num ok) ∧
    start_consumers 3 (fun n => !(n == 1)) = [0, 2] ∧
    (∀ m num ok, (run_start_consumers m num ok)._state = ServerState.RUNNING) := by
  refine ⟨?_, ?_, by decide, fun m num ok => rfl⟩
  · intro num ok
    rw [start_consumers_eq_filter]
    have h2 : ∀ l : List Nat,
        (l.filter ok).length + l.countP (fun n => !(ok n)) = l.length := by
      intro l
      induction l with
      | nil => simp
      | cons x xs ih =>
        cases hx : ok x <;>
          simp [List.filter_cons, List.countP_cons, hx, ih] <;> omega
    simpa using h2 (List.range num)
  · intro num ok i h1 h2
    rw [start_consumers_eq_filter]
    simp [List.mem_filter, List.mem_range, h1, h2]

/-- Claim C6 witness: worker 2 is in the pool started with count 3 when
only construction 1 fails. -/
theorem c6_witness : 2 ∈ start_consumers 3 (fun n => !(n == 1)) :=
  c6_worker_pool.2.1 3 (fun n => !(n == 1)) 2 (by decide) (by decide)

/-- Claim C7: the drain loop breaks only at a poll where the state is
STOPPING and the active-request count is zero (so the state is never moved
to STOPPED while the polled count is positive); on the scenario where the
count reads 2, then 1, then 0 the break happens exactly at the third poll;
and update_status never moves a state other than STOPPED to STOPPED, so
STOPPED is entered only by the drain loop completing. -/
theorem c7_drain_loop :
    (∀ stopping counts fuel k j, drain_break stopping counts fuel k = some j →
        stopping j = true ∧ counts j = 0) ∧
    drain_break c7_stopping c7_counts 10 0 = some 2 ∧
    (∀ (st : ServerState) (n : Nat) (a : ServerAction),
        st ≠ ServerState.STOPPED →
        (update_status st n a).1 ≠ ServerState.STOPPED) := by
  refine ⟨?_, by decide, ?_⟩
  · intro stopping counts fuel
    induction fuel with
    | zero => intro k j h; simp [drain_break] at h
    | succ f ih =>
      intro k j h
      cases hs : stopping k with
      | false =>
        simp [drain_break, hs] at h
        exact ih (k + 1) j h
      | true =>
        cases hn : (counts k == 0) with
        | false =>
          simp [drain_break, hs, hn] at h
          exact ih (k + 1) j h
        | true =>
          simp [drain_break, hs, hn] at h
          exact ⟨h ▸ hs, h ▸ (by simpa using hn)⟩
  · intro st n a hne
    cases st <;> cases a <;> simp [update_status] <;> exact hne rfl

/-- Claim C7 witness: the break of the 2-1-0 scenario indeed lands on a
poll with state STOPPING and count zero. -/
theorem c7_witness : c7_stopping 2 = true ∧ c7_counts 2 = 0 :=
  c7_drain_loop.1 c7_stopping c7_counts 10 0 2 (by decide)

/-- Claim C8: applying the template rules with the config key absent or an
empty rule list leaves the template list unchanged, and two rules patching
the compute-policy field of the same template apply in declaration order
with the earlier mutation visible to the later rule, so the final policy is
the second rule's value. -/
theorem c8_template_rules :
    (∀ ts, process_template_rules none ts = ts) ∧
    (∀ ts, process_template_rules (some []) ts = ts) ∧
    (∀ (name rev item p1 p2 : String),
        process_template_rules
          (some [⟨"A", name, rev, some p1⟩, ⟨"B", name, rev, some p2⟩])
          [⟨name, rev, "", item⟩] =
          [⟨name, rev, p2, item⟩]) := by
  refine ⟨fun ts => rfl, fun ts => rfl, ?_⟩
  intro name rev item p1 p2
  simp [process_template_rules, apply_rule]
